import Mathlib

/-!
Shallow embedding of the solana-sniper trading bot (Python sources under
`src/`), covering the parts the verified claims are about:

* `config.py`        — the static thresholds used by the pipeline.
* `scorer.py`        — `score_token`: additive scoring over a market-data
  snapshot.
* `token_utils.py`   — `get_token_info`, `compute_effective_liquidity_from_gecko`.
* `scanner.py`       — `fetch_tokens`: the discovery filter loop.
* `main.py`          — `TradingBot.process_token` / `run_once`: the buy path.
* `wmain.py`         — `check_and_monitor`: the per-position exit logic.
* `trader.py`        — `swap`: the live swap executor and its logging.
* `db.py`            — `log_swap`: the upsert into the `swap_logs` table.
* `wallet_utils.py`  — `calculate_position_size`: the capital check.

Modelling conventions.  Python floats and Decimals are modelled as `ℚ`;
Python `None` as `Option.none`.  External HTTP calls are modelled as oracle
values carried in an environment record: each constructor of a fetch type
records one observable outcome of the call (transport error, bad body,
payload).  Python exceptions that escape a function are modelled with
`Except PyErr`; `try/except` blocks that swallow them are modelled by the
corresponding defaulted return value, exactly where the `try` block sits in
the source.  The ISO-8601 `createdAt` parsing plus "now" subtraction in
`score_token` is abstracted to its result, the token age in minutes
(`age_minutes : Option ℚ`), since no claim concerns date parsing itself.
-/

/-! ### Configuration constants (config.py) -/

def TESTING_MODE : Bool := false

def STOP_LOSS : ℚ := -50

def TAKE_PROFIT : ℚ := 40

def RISK_PER_TRADE : ℚ := 1/100

def AMOUNT_PER_TRADE : ℚ := 100 * RISK_PER_TRADE

def MIN_LIQUIDITY : ℚ := 100000

def MIN_POOL_SHARE : ℚ := 1/10

def MIN_24H_VOLUME : ℚ := 5000

def VALID_POOL_LIQUIDITY : ℚ := 25000

def ALLOWED_DEXES : List String := ["raydium", "orca", "meteora", "pump-fun"]

def MIN_SCORE : ℚ := 55

def RUG_SCORE : ℤ := 1

def MAX_OPEN_POSITIONS : ℕ := 2

def WSOL : String := "So11111111111111111111111111111111111111112"

/-! ### Python value helpers -/

/-- Python's `x or d` on an optional numeric value: `None` and `0`/`0.0` are
falsy and fall through to the default.  Used by `score_token` when reading
dict fields (`token.get("mcap") or token.get("fdv") or 0`, etc.). -/
def pyOrQ : Option ℚ → ℚ → ℚ
  | none, d => d
  | some v, d => if v = 0 then d else v

/-- Python's `x or d` for optional integers (`token.get("holderCount") or 0`). -/
def pyOrZ : Option ℤ → ℤ → ℤ
  | none, d => d
  | some v, d => if v = 0 then d else v

/-- `safe_float` from wmain.py: `None` (or an unparsable value, folded into
`none`) becomes the default `0.0`. -/
def safeFloat : Option ℚ → ℚ
  | none => 0
  | some v => v

/-- Python `int()` applied to a float: truncation toward zero. -/
def pyInt (q : ℚ) : ℤ := if 0 ≤ q then ⌊q⌋ else -⌊-q⌋

/-- Exceptions that escape a modelled Python function. -/
inductive PyErr
  | attributeError    -- e.g. `None.get(...)`
  | typeError         -- e.g. `round(None, 2)`
  | valueError        -- e.g. failed transaction deserialization
  | jsonError         -- e.g. `r.json()` on a non-JSON body
  | zeroDivisionError -- e.g. dividing by a float that is 0.0
deriving DecidableEq, Repr

/-! ### Market-data client (token_utils.py) -/

/-- The normalized snapshot dict built by `get_token_info`.  Its fields are
exactly the keys of the returned dict (with `createdAt` abstracted to the
derived age, and audit flags as booleans).  Note there is no
`topHoldersPercentage` and no `fdv` key. -/
structure TokenInfo where
  usdPrice : Option ℚ
  liquidity : Option ℚ
  mcap : Option ℚ
  symbol : Option String
  mint : Option String
  holderCount : Option ℤ
  mint_authority : Bool
  freeze_authority : Bool
  priceChange_H1 : Option ℚ
  volume_H1 : Option ℚ
  age_minutes : Option ℚ
  name : Option String
deriving DecidableEq, Repr

/-- Outcome of the Jupiter asset-search call inside `get_token_info`.
`failure` covers everything raised inside the `try` block: non-200 status,
timeout, and JSON decode errors (`except Exception` catches them all);
`emptyData` is a 200 response whose payload list is falsy. -/
inductive JupFetch
  | failure
  | emptyData
  | ok (asset : TokenInfo)
deriving DecidableEq, Repr

/-- `get_token_info`: returns the snapshot, or `None` on failure/empty data. -/
def get_token_info : JupFetch → Option TokenInfo
  | .failure => none
  | .emptyData => none
  | .ok a => some a

/-- One pool entry from the GeckoTerminal response, after the field reads
`float(a.get("fdv_usd", 0))`, `float(a.get("volume_usd", {}).get("h24", 0))`
and `p["relationships"]["dex"]["data"]["id"]`. -/
structure GPool where
  fdv_usd : ℚ
  vol24 : ℚ
  dex : String
deriving DecidableEq, Repr

/-- Outcome of the GeckoTerminal pools call in
`compute_effective_liquidity_from_gecko`.  Only the request itself sits in
the `try` block; `r.json()` is evaluated after it, so a 200 response with an
unparsable body (`badBody`) raises instead of being caught. -/
inductive GeckoFetch
  | transportError
  | badBody
  | ok (pools : List GPool)
deriving DecidableEq, Repr

/-- The dict returned by `compute_effective_liquidity_from_gecko`, read back
through `.get("effective_lp", 0.0)` / `.get("max_pool_lp", 0.0)` by the
scorer (absent keys default to `0.0`). -/
structure EffResult where
  effective_lp : ℚ
  max_pool_lp : ℚ
deriving DecidableEq, Repr

/-- First filter pass of `compute_effective_liquidity_from_gecko`: keep the
liquidity of pools meeting the minimum pool liquidity, minimum 24h volume and
allowed-DEX conditions. -/
def validPools (ps : List GPool) : List ℚ :=
  (ps.filter (fun p =>
    decide (VALID_POOL_LIQUIDITY ≤ p.fdv_usd)
      && decide (MIN_24H_VOLUME ≤ p.vol24)
      && ALLOWED_DEXES.contains p.dex)).map (fun p => p.fdv_usd)

/-- Python `max(v)` on a nonempty list (0 placeholder on empty, unreachable). -/
def listMax : List ℚ → ℚ
  | [] => 0
  | h :: t => t.foldl max h

/-- The pool math of `compute_effective_liquidity_from_gecko`: the
`(effective_lp, max_pool_lp)` pair produced from the decoded pools list. -/
def effectivePoolSum (ps : List GPool) : EffResult :=
  match validPools ps with
  | [] => ⟨0, 0⟩
  | v0 :: vt =>
    let v := v0 :: vt
    let m := listMax v
    ⟨(v.filter (fun lp =>
        decide (m * MIN_POOL_SHARE ≤ lp) && decide (MIN_LIQUIDITY ≤ lp))).sum, m⟩

/-- `compute_effective_liquidity_from_gecko`: transport errors are caught and
yield `{"effective_lp": 0.0}`; a bad body raises from `r.json()` (outside the
`try`); otherwise the pool math runs. -/
def computeEffective : GeckoFetch → Except PyErr EffResult
  | .transportError => .ok ⟨0, 0⟩
  | .badBody => .error .jsonError
  | .ok ps => .ok (effectivePoolSum ps)

/-! ### Scorer (scorer.py) -/

/-- The fields `score_token` reads off the snapshot dict via `.get`, kept
optional because the scorer is written to tolerate their absence.  When the
snapshot comes from `get_token_info`, `fdv` and `topHoldersPercentage` are
always absent (see `TokenInfo.toSnap`). -/
structure Snap where
  mcap : Option ℚ
  fdv : Option ℚ
  age_minutes : Option ℚ
  holderCount : Option ℤ
  topHoldersPercentage : Option ℚ
deriving DecidableEq, Repr

/-- View of a `get_token_info` snapshot as scorer input: the dict has no
`fdv` and no `topHoldersPercentage` key, so both read back as `None`. -/
def TokenInfo.toSnap (ti : TokenInfo) : Snap :=
  { mcap := ti.mcap
    fdv := none
    age_minutes := ti.age_minutes
    holderCount := ti.holderCount
    topHoldersPercentage := none }

/-- LP/MC ratio breakpoints (max 26 points). -/
def lp_mc_score (r : ℚ) : ℚ :=
  if 25/100 ≤ r then 26
  else if 18/100 ≤ r then 22
  else if 12/100 ≤ r then 18
  else if 8/100 ≤ r then 12
  else if 5/100 ≤ r then 8
  else 0

/-- Token-age breakpoints in minutes (max 12 points), for a parsed age. -/
def age_score_num (a : ℚ) : ℚ :=
  if a ≤ 20 then 12
  else if a ≤ 60 then 9
  else if a ≤ 180 then 6
  else if a ≤ 720 then 3
  else 0

/-- Token-age category: missing/unparsable `createdAt` scores 0. -/
def age_score : Option ℚ → ℚ
  | none => 0
  | some a => age_score_num a

/-- Holder-count breakpoints (max 12 points). -/
def holders_score (h : ℤ) : ℚ :=
  if 10000 ≤ h then 12
  else if 5000 ≤ h then 9
  else if 2000 ≤ h then 6
  else if 600 ≤ h then 4
  else if 200 ≤ h then 2
  else 0

/-- Top-holders concentration breakpoints (max 10 points, lower is better). -/
def top_score (p : ℚ) : ℚ :=
  if p ≤ 20 then 10
  else if p ≤ 30 then 6
  else if p ≤ 40 then 3
  else 0

/-- The pure core of `score_token`: the score computed from a snapshot and
the effective liquidity returned by the pools call.  Mirrors the source line
by line: `mc = float(token.get("mcap") or token.get("fdv") or 0)`,
`lp_mc = effective_lp / mc if mc > 0 else 0.0`,
`holders = int(token.get("holderCount") or 0)`,
`top_pct = float(token.get("topHoldersPercentage") or 100)`,
`final_score = min(score, 100)`.  A falsy (`None`) snapshot scores 0. -/
def score_token_core (t : Option Snap) (effective_lp : ℚ) : ℚ :=
  match t with
  | none => 0
  | some s =>
    let mc := pyOrQ s.mcap (pyOrQ s.fdv 0)
    let lp_mc := if 0 < mc then effective_lp / mc else 0
    let sc := lp_mc_score lp_mc + age_score s.age_minutes
      + holders_score (pyOrZ s.holderCount 0)
      + top_score (pyOrQ s.topHoldersPercentage 100)
    min sc 100

/-- `score_token` as run by the pipeline: `get_token_info` result feeds the
snapshot (a `None` snapshot returns 0 before the pools call), then
`compute_effective_liquidity_from_gecko` supplies `effective_lp`; an
exception from that call propagates out of `score_token`. -/
def score_token_run (ti : Option TokenInfo) (g : GeckoFetch) : Except PyErr ℚ :=
  match ti with
  | none => .ok 0
  | some t =>
    match computeEffective g with
    | .error err => .error err
    | .ok res => .ok (score_token_core (some t.toSnap) res.effective_lp)

/-! ### Wallet utilities (wallet_utils.py) -/

/-- `calculate_position_size`: the capital check.  `get_token_price(WSOL)`
returning `None` fails the check; otherwise it requires a USDT balance
strictly above `AMOUNT_PER_TRADE` and a SOL value strictly above 1 USD. -/
def calculate_position_size (usdtBalance solBalance : ℚ)
    (solPrice : Option ℚ) : Bool :=
  match solPrice with
  | none => false
  | some p => decide (AMOUNT_PER_TRADE < usdtBalance) && decide (1 < solBalance * p)

/-! ### Discovery filter (scanner.py, fetch_tokens) -/

/-- The per-mint external data the discovery loop observes: the outcome of
`get_token_info(mint)` and of `get_token_rug_info(mint)`.  The rug info is
`None` after retry exhaustion; when present it carries `data.get("score")`,
itself possibly `None`. -/
structure MintData where
  jup : JupFetch
  rugInfo : Option (Option ℤ)

/-- Python `round(x, 2)`, modelled with round-to-nearest on hundredths.
(Python rounds half to even; the two agree except at exact half-hundredths,
and no claim depends on ties.) -/
def round2 (q : ℚ) : ℚ := (round (q * 100) : ℤ) / 100

/-- The filter loop of `fetch_tokens` over the feed's mint list, with the
external calls resolved by `env`.  Per node: a falsy mint is skipped; a
`None` token info is skipped; a `None` rug info is skipped; then
`rug_score = rug_info["rug_score"]` and
`liquidity = round(token_info.get('liquidity', 0), 2)` are evaluated — the
latter raises `TypeError` when the liquidity field is null (`round(None, 2)`),
which aborts the whole fetch; then nodes failing the rug-score equality or
the minimum-liquidity filter are skipped; survivors are appended as
candidates. -/
def fetchLoop (env : String → MintData) : List (Option String) → Except PyErr (List String)
  | [] => .ok []
  | none :: rest => fetchLoop env rest
  | some m :: rest =>
    match get_token_info (env m).jup with
    | none => fetchLoop env rest
    | some ti =>
      match (env m).rugInfo with
      | none => fetchLoop env rest
      | some rug =>
        match ti.liquidity with
        | none => .error .typeError
        | some liq0 =>
          let liq := round2 liq0
          if rug ≠ some RUG_SCORE then fetchLoop env rest
          else if liq < MIN_LIQUIDITY then fetchLoop env rest
          else
            match fetchLoop env rest with
            | .error err => .error err
            | .ok l => .ok (m :: l)

/-! ### Discovery buy path (main.py, TradingBot.process_token / run_once) -/

/-- Everything `process_token` observes for one candidate: the candidate's
mint, the wallet-state predicates, the token-info and pools fetch outcomes
(each external call is deterministic per mint within the cycle), and the
balances read by the capital check. -/
structure DiscEnv where
  mint : Option String
  alreadyClosed : Bool
  alreadyOpened : Bool
  canOpen : Bool
  tokenInfo : Option TokenInfo
  gecko : GeckoFetch
  usdtBalance : ℚ
  solBalance : ℚ
  solPrice : Option ℚ

/-- `process_token`: returns the list of buy-swap invocations it makes
(the mint bought), or the exception that escaped it.  A falsy mint, an
already-closed or already-opened token, or a full position book return
early with no buy.  `token_data = get_token_info(mint)` followed by
`token_data.get('name', ...)` raises `AttributeError` when the fetch
returned `None`.  `score_token` may propagate an exception from the pools
call.  A score below `MIN_SCORE` or a failing capital check return with no
buy; otherwise `swap(USDT, mint, AMOUNT_PER_TRADE)` is invoked. -/
def processToken (e : DiscEnv) : Except PyErr (List String) :=
  match e.mint with
  | none => .ok []
  | some m =>
    if e.alreadyClosed then .ok []
    else if e.alreadyOpened then .ok []
    else if e.canOpen = false then .ok []
    else
      match e.tokenInfo with
      | none => .error .attributeError
      | some _ =>
        match score_token_run e.tokenInfo e.gecko with
        | .error err => .error err
        | .ok score =>
          if score < MIN_SCORE then .ok []
          else if calculate_position_size e.usdtBalance e.solBalance e.solPrice = false
            then .ok []
          else .ok [m]

/-- Buys actually invoked by a `process_token` outcome (none when the call
raised). -/
def buysOf : Except PyErr (List String) → List String
  | .error _ => []
  | .ok l => l

/-- The candidate loop of `run_once`: `process_token` is awaited for each
discovered token inside a single `try`, so the first escaping exception
skips all remaining tokens of the cycle.  Returns how many candidates were
actually entered and the buys made. -/
def runOnceLoop : List DiscEnv → ℕ × List String
  | [] => (0, [])
  | e :: rest =>
    match processToken e with
    | .error _ => (1, [])
    | .ok buys =>
      let r := runOnceLoop rest
      (r.1 + 1, buys ++ r.2)

/-! ### Monitoring loop (wmain.py, check_and_monitor) -/

/-- One exit attempt (a `swap(mint, USDT, amount, "sell")` invocation) and
the branch that made it. -/
inductive ExitEvent
  | rugExit
  | takeProfit
  | stopLoss
deriving DecidableEq, Repr

/-- One row as returned by `get_swaps_for_token` (newest first), restricted
to the fields the monitor reads; `entering_price` is parsed with
`safe_float` (unparsable folded into `none`). -/
structure SwapRowM where
  entering_price : Option ℚ
  input_amount_ui : Option ℚ
deriving DecidableEq, Repr

/-- Everything `check_and_monitor` observes for one held token. -/
structure MonCtx where
  mint : String
  excluded : Bool
  tokenInfo : Option TokenInfo
  gecko : GeckoFetch
  rugInfo : Option (Option ℤ)
  swaps : List SwapRowM
  uiAmount : ℚ

/-- The per-token body of `check_and_monitor`: returns the sell attempts
made for this token (or the exception that escaped).  In source order: an
excluded mint is skipped; `token_info.get("usdPrice")` raises on a `None`
token info; `score_token` runs (and may propagate the pools-call
exception); a `None` rug info skips the token; an empty swap history prints
"no data" and skips; a nonpositive entry or current price skips; then the
rug-deviation branch sells and `continue`s, else `pnl_pct >= TAKE_PROFIT`
sells, `elif pnl_pct <= STOP_LOSS` sells. -/
def monitorToken (c : MonCtx) : Except PyErr (List ExitEvent) :=
  if c.excluded then .ok []
  else
    match c.tokenInfo with
    | none => .error .attributeError
    | some ti =>
      let price := safeFloat ti.usdPrice
      match score_token_run (some ti) c.gecko with
      | .error err => .error err
      | .ok _score =>
        match c.rugInfo with
        | none => .ok []
        | some rug =>
          match c.swaps with
          | [] => .ok []
          | row :: _ =>
            let entry := safeFloat row.entering_price
            if entry ≤ 0 ∨ price ≤ 0 then .ok []
            else
              let pnl_pct := (price - entry) / entry * 100
              if rug ≠ some RUG_SCORE then .ok [.rugExit]
              else if TAKE_PROFIT ≤ pnl_pct then .ok [.takeProfit]
              else if pnl_pct ≤ STOP_LOSS then .ok [.stopLoss]
              else .ok []

/-- The token loop of `check_and_monitor`: tokens are handled sequentially
with no `try` inside the loop, so the first escaping exception (caught only
in `main_loop`) skips all remaining tokens of the cycle.  Returns how many
held tokens were actually entered and the sell attempts made. -/
def monitorLoop : List MonCtx → ℕ × List ExitEvent
  | [] => (0, [])
  | c :: rest =>
    match monitorToken c with
    | .error _ => (1, [])
    | .ok es =>
      let r := monitorLoop rest
      (r.1 + 1, es ++ r.2)

/-! ### Swap executor (trader.py, swap) -/

/-- Outcome of the send-and-confirm `try` block in `swap`:
`confirmed` → "success"; `notConfirmed` → "timeout"; `raisedAfterSig` /
`raisedBeforeSig` → "failed" (the latter leaves `tx_signature` undefined in
locals, so `None` is logged). -/
inductive SendOutcome
  | confirmed
  | notConfirmed
  | raisedAfterSig
  | raisedBeforeSig
deriving DecidableEq, Repr

/-- The fields of a Jupiter quote that `swap` reads. -/
structure QuoteData where
  outAmount : ℤ
  priceImpactPct : ℚ
deriving DecidableEq, Repr

/-- Everything one `swap` invocation observes from outside. -/
structure SwapEnv where
  testingMode : Bool
  wallet : String
  inputMint : String
  outputMint : String
  amount : ℚ
  action : String
  tokenIn : Option TokenInfo
  tokenOut : Option TokenInfo
  quoteFetch : Except PyErr (Option QuoteData)
  swapResp : Option String
  txDecodeOk : Bool
  sigStr : String
  send : SendOutcome

/-- One row as `log_swap` persists it for a `swap` invocation (trader.py
never passes `error_message`, so it is always the default `None`;
`tx_signature` is stored after db.py's `str(...)` conversion, and
`output_liqudation` after the `Decimal(str(...))` conversion, which
succeeds only on a non-null value). -/
structure LogRecord where
  wallet : String
  action : String
  entering_price : ℚ
  input_amount_ui : ℚ
  output_amount_ui : ℚ
  output_liqudation : ℚ
  tx_signature : String
  price_impact_pct : ℚ
  status : String
  error_message : Option String
deriving DecidableEq, Repr

/-- Python `str(...)` applied to an optional string, as db.py's `log_swap`
does to its `tx_signature` argument: `str(None)` is the literal string
"None". -/
def pyStr : Option String → String
  | none => "None"
  | some s => s

/-- The status string the send/confirm `try` block of `swap` produces:
confirmed → "success", not confirmed → "timeout", any exception →
"failed". -/
def statusOf : SendOutcome → String
  | .confirmed => "success"
  | .notConfirmed => "timeout"
  | .raisedAfterSig => "failed"
  | .raisedBeforeSig => "failed"

/-- The `tx_signature` value `swap` passes to `log_swap`:
`str(tx_signature) if 'tx_signature' in locals() else None` — the local is
unbound only when `send_raw_transaction` raised before returning a
signature. -/
def sigOf : SendOutcome → String → Option String
  | .raisedBeforeSig, _ => none
  | _, sig => some sig

/-- One `log_swap` call from db.py, applied to the arguments trader.py
passes.  The monetary values go through `Decimal(str(...))`, so a null
`output_liqudation` (the output token's liquidity field is null) raises
`InvalidOperation` inside `log_swap`'s `try`, which is swallowed with a
rollback: nothing is persisted.  Otherwise one row is persisted, with the
signature stringified (`str(None)` is "None") and `error_message` at its
`None` default. -/
def log_swap_call (wallet action : String) (entering_price inUi outUi : ℚ)
    (liquidity : Option ℚ) (sig : Option String) (impact : ℚ)
    (status : String) : List LogRecord :=
  match liquidity with
  | none => []
  | some l =>
    [{ wallet := wallet, action := action, entering_price := entering_price
       input_amount_ui := inUi, output_amount_ui := outUi
       output_liqudation := l, tx_signature := pyStr sig
       price_impact_pct := impact, status := status, error_message := none }]

/-- `9 if mint == WSOL else token_info.get("decimals", 6)`: raises
`AttributeError` on a `None` token info; the dict built by `get_token_info`
has no `decimals` key, so the default 6 is always used otherwise. -/
def decimalsFor (mint : String) (ti : Option TokenInfo) : Except PyErr ℕ :=
  if mint = WSOL then .ok 9
  else match ti with
    | none => .error .attributeError
    | some _ => .ok 6

/-- `swap` from trader.py: returns the status string and the rows its
single `log_swap` call persisted.  Testing mode short-circuits with
"success" and no log.  Live mode, in source order: token infos and
decimals (raise on a `None` token info off the WSOL shortcut), raw/UI
input amounts, then `get_quote` — a `None` quote returns "failed" with no
log; the trade-summary print divides the expected output by the truncated
input UI amount, raising `ZeroDivisionError` when that amount is 0 (no
log); the swap-transaction POST — a non-200 returns "failed" with no log;
base64/VersionedTransaction decoding outside any `try` — a failure raises
with no log; then the send/confirm `try` maps the outcome to
success/timeout/failed and `log_swap` is called once — its argument
`token_out.get('liquidity', 0)` raises `AttributeError` when `token_out`
is `None` (reachable when the output mint is WSOL), and the call itself
persists nothing when the liquidity value is null (see
`log_swap_call`). -/
def swapExec (e : SwapEnv) : Except PyErr (String × List LogRecord) :=
  if e.testingMode then .ok ("success", [])
  else
    match decimalsFor e.inputMint e.tokenIn with
    | .error err => .error err
    | .ok din =>
      match decimalsFor e.outputMint e.tokenOut with
      | .error err => .error err
      | .ok dout =>
        let inRaw := pyInt (e.amount * (10 : ℚ) ^ din)
        let inUi : ℚ := (inRaw : ℚ) / (10 : ℚ) ^ din
        match e.quoteFetch with
        | .error err => .error err
        | .ok none => .ok ("failed", [])
        | .ok (some q) =>
          let outUi : ℚ := (q.outAmount : ℚ) / (10 : ℚ) ^ dout
          let enterPrice := if 0 < outUi then inUi / outUi else 0
          if inUi = 0 then .error .zeroDivisionError
          else
            match e.swapResp with
            | none => .ok ("failed", [])
            | some _ =>
              if e.txDecodeOk = false then .error .valueError
              else
                match e.tokenOut with
                | none => .error .attributeError
                | some t =>
                  .ok (statusOf e.send,
                    log_swap_call e.wallet e.action enterPrice inUi outUi
                      t.liquidity (sigOf e.send e.sigStr) q.priceImpactPct
                      (statusOf e.send))

/-! ### Persistence (db.py, log_swap) -/

/-- One row of the `swap_logs` table, restricted to the columns `log_swap`
writes. `tx_signature` is stored after Python `str(...)` conversion, so it
is a plain string key here. -/
structure TradeRow where
  wallet : String
  action : String
  entering_price : String
  input_mint : String
  input_amount_ui : ℚ
  input_amount_raw : ℤ
  output_mint : String
  output_amount_ui : ℚ
  output_amount_raw : ℤ
  output_liqudation : ℚ
  tx_signature : String
  price_impact_pct : Option ℚ
  slippage_bps : Option ℤ
  status : String
  error_message : Option String
  updated_at : ℕ
deriving DecidableEq, Repr

/-- Modelled from the spec: the `swap_logs` table schema is not in the
repository (only the INSERT in db.py is); per the spec the transaction
signature is the table's unique key and `updated_at` auto-updates, so
`INSERT ... ON DUPLICATE KEY UPDATE status = VALUES(status),
error_message = VALUES(error_message), updated_at = CURRENT_TIMESTAMP`
inserts a fresh row when the signature is new and otherwise updates only
the status, error-message and update-timestamp columns of the matching
row. `t` is the statement's CURRENT_TIMESTAMP. -/
def log_swap_db (db : List TradeRow) (r : TradeRow) (t : ℕ) : List TradeRow :=
  if db.any (fun row => row.tx_signature == r.tx_signature) then
    db.map (fun row =>
      if row.tx_signature == r.tx_signature then
        { row with status := r.status, error_message := r.error_message,
                   updated_at := t }
      else row)
  else db ++ [{ r with updated_at := t }]

/-! ### Helper lemmas about the scorer's sub-score tables -/

theorem lp_mc_score_nonneg (r : ℚ) : 0 ≤ lp_mc_score r := by
  unfold lp_mc_score; split_ifs <;> norm_num

theorem lp_mc_score_le (r : ℚ) : lp_mc_score r ≤ 26 := by
  unfold lp_mc_score; split_ifs <;> norm_num

theorem lp_mc_score_mono {r₁ r₂ : ℚ} (h : r₁ ≤ r₂) :
    lp_mc_score r₁ ≤ lp_mc_score r₂ := by
  unfold lp_mc_score; split_ifs <;> linarith

theorem age_score_nonneg (a : Option ℚ) : 0 ≤ age_score a := by
  cases a with
  | none => simp [age_score]
  | some v => simp only [age_score, age_score_num]; split_ifs <;> norm_num

theorem age_score_le (a : Option ℚ) : age_score a ≤ 12 := by
  cases a with
  | none => simp [age_score]
  | some v => simp only [age_score, age_score_num]; split_ifs <;> norm_num

theorem age_score_num_anti {a₁ a₂ : ℚ} (h : a₂ ≤ a₁) :
    age_score_num a₁ ≤ age_score_num a₂ := by
  unfold age_score_num; split_ifs <;> linarith

theorem holders_score_nonneg (h : ℤ) : 0 ≤ holders_score h := by
  unfold holders_score; split_ifs <;> norm_num

theorem holders_score_le (h : ℤ) : holders_score h ≤ 12 := by
  unfold holders_score; split_ifs <;> norm_num

theorem holders_score_mono {h₁ h₂ : ℤ} (h : h₁ ≤ h₂) :
    holders_score h₁ ≤ holders_score h₂ := by
  unfold holders_score; split_ifs <;> first | (exfalso; omega) | norm_num

theorem top_score_nonneg (p : ℚ) : 0 ≤ top_score p := by
  unfold top_score; split_ifs <;> norm_num

theorem top_score_le (p : ℚ) : top_score p ≤ 10 := by
  unfold top_score; split_ifs <;> norm_num

theorem top_score_anti {p₁ p₂ : ℚ} (h : p₂ ≤ p₁) :
    top_score p₁ ≤ top_score p₂ := by
  unfold top_score; split_ifs <;> linarith

theorem pyOrZ_some (v : ℤ) : pyOrZ (some v) 0 = v := by
  simp only [pyOrZ]; split_ifs with h <;> omega

theorem pyOrQ_some_pos {v : ℚ} (h : 0 < v) (d : ℚ) : pyOrQ (some v) d = v := by
  simp only [pyOrQ, if_neg (ne_of_gt h)]

/-- The sum of sub-scores is between 0 and 60 before clamping. -/
theorem score_token_core_bounds (t : Option Snap) (e : ℚ) :
    0 ≤ score_token_core t e ∧ score_token_core t e ≤ 100 := by
  cases t with
  | none => simp [score_token_core]
  | some s =>
    unfold score_token_core
    dsimp only
    refine ⟨le_min ?_ (by norm_num), min_le_right _ _⟩
    have h1 := lp_mc_score_nonneg (if 0 < pyOrQ s.mcap (pyOrQ s.fdv 0)
      then e / pyOrQ s.mcap (pyOrQ s.fdv 0) else 0)
    have h2 := age_score_nonneg s.age_minutes
    have h3 := holders_score_nonneg (pyOrZ s.holderCount 0)
    have h4 := top_score_nonneg (pyOrQ s.topHoldersPercentage 100)
    linarith

/-- Unfolding equation for `score_token_core` on a present snapshot. -/
theorem score_token_core_some (s : Snap) (e : ℚ) :
    score_token_core (some s) e =
      min (lp_mc_score (if 0 < pyOrQ s.mcap (pyOrQ s.fdv 0)
            then e / pyOrQ s.mcap (pyOrQ s.fdv 0) else 0)
        + age_score s.age_minutes
        + holders_score (pyOrZ s.holderCount 0)
        + top_score (pyOrQ s.topHoldersPercentage 100)) 100 := rfl

theorem score_core_mono_lp (s : Snap) {e₁ e₂ : ℚ} (h : e₁ ≤ e₂) :
    score_token_core (some s) e₁ ≤ score_token_core (some s) e₂ := by
  rw [score_token_core_some, score_token_core_some]
  refine min_le_min
    (add_le_add (add_le_add (add_le_add ?_ le_rfl) le_rfl) le_rfl) le_rfl
  apply lp_mc_score_mono
  split_ifs with hmc
  · exact (div_le_div_iff_of_pos_right hmc).mpr h
  · exact le_rfl

theorem score_core_mono_holders (s : Snap) (e : ℚ) {h₁ h₂ : ℤ} (hle : h₁ ≤ h₂) :
    score_token_core (some { s with holderCount := some h₁ }) e
      ≤ score_token_core (some { s with holderCount := some h₂ }) e := by
  rw [score_token_core_some, score_token_core_some]
  dsimp only
  rw [pyOrZ_some, pyOrZ_some]
  exact min_le_min
    (add_le_add (add_le_add le_rfl (holders_score_mono hle)) le_rfl) le_rfl

theorem score_core_anti_age (s : Snap) (e : ℚ) {a₁ a₂ : ℚ} (hle : a₂ ≤ a₁) :
    score_token_core (some { s with age_minutes := some a₁ }) e
      ≤ score_token_core (some { s with age_minutes := some a₂ }) e := by
  rw [score_token_core_some, score_token_core_some]
  dsimp only
  exact min_le_min
    (add_le_add (add_le_add (add_le_add le_rfl (age_score_num_anti hle)) le_rfl)
      le_rfl) le_rfl

theorem score_core_anti_top (s : Snap) (e : ℚ) {p₁ p₂ : ℚ}
    (hp : 0 < p₂) (hle : p₂ ≤ p₁) :
    score_token_core (some { s with topHoldersPercentage := some p₁ }) e
      ≤ score_token_core (some { s with topHoldersPercentage := some p₂ }) e := by
  rw [score_token_core_some, score_token_core_some]
  dsimp only
  rw [pyOrQ_some_pos (lt_of_lt_of_le hp hle), pyOrQ_some_pos hp]
  exact min_le_min (add_le_add le_rfl (top_score_anti hle)) le_rfl

/-- A snapshot produced by `get_token_info` carries no concentration field,
so the concentration sub-score is zero and the total is at most 50. -/
theorem score_core_toSnap_le_50 (ti : TokenInfo) (e : ℚ) :
    score_token_core (some ti.toSnap) e ≤ 50 := by
  rw [score_token_core_some]
  have htop : top_score (pyOrQ (TokenInfo.toSnap ti).topHoldersPercentage 100) = 0 := by
    norm_num [TokenInfo.toSnap, pyOrQ, top_score]
  rw [htop]
  refine le_trans (min_le_left _ _) ?_
  have h1 := lp_mc_score_le (if 0 < pyOrQ (TokenInfo.toSnap ti).mcap
    (pyOrQ (TokenInfo.toSnap ti).fdv 0)
    then e / pyOrQ (TokenInfo.toSnap ti).mcap (pyOrQ (TokenInfo.toSnap ti).fdv 0)
    else 0)
  have h2 := age_score_le (TokenInfo.toSnap ti).age_minutes
  have h3 := holders_score_le (pyOrZ (TokenInfo.toSnap ti).holderCount 0)
  linarith

/-- Any score the pipeline's `score_token` actually returns is at most 50. -/
theorem score_token_run_le_50 (ti : Option TokenInfo) (g : GeckoFetch) (q : ℚ)
    (h : score_token_run ti g = .ok q) : q ≤ 50 := by
  unfold score_token_run at h
  cases ti with
  | none => simp only [Except.ok.injEq] at h; rw [← h]; norm_num
  | some t =>
    cases hc : computeEffective g with
    | error err => rw [hc] at h; exact absurd h (by simp)
    | ok res =>
      rw [hc] at h
      simp only [Except.ok.injEq] at h
      rw [← h]
      exact score_core_toSnap_le_50 t res.effective_lp

/-- `process_token` never reaches the swap call: the score threshold check
always fires first. -/
theorem processToken_no_buys (e : DiscEnv) : buysOf (processToken e) = [] := by
  unfold processToken
  cases e.mint with
  | none => rfl
  | some m =>
    dsimp only
    split_ifs <;> try rfl
    all_goals
      cases hti : e.tokenInfo with
      | none => rfl
      | some td =>
        dsimp only
        cases hr : score_token_run (some td) e.gecko with
        | error err => rfl
        | ok score =>
          dsimp only
          have hle : score ≤ 50 := score_token_run_le_50 _ _ _ hr
          have hlt : score < MIN_SCORE := by unfold MIN_SCORE; linarith
          rw [if_pos hlt]
          rfl

/-! ### Claim theorems -/

/-- C1 (amended): for every market-data snapshot, `score_token` returns a
score clamped to `[0, 100]`, and the score is monotonically non-decreasing
in each individually-improving favorable sub-metric while all other inputs
are held fixed: effective liquidity rising with market cap fixed (so the
LP/MC ratio rising), holder count rising, token age falling, and top-holder
concentration falling so long as the concentration stays strictly positive
(a concentration of exactly 0 is falsy in `token.get(...) or 100`, defaults
to 100, and scores 0 — see the counterexample). -/
theorem c1_score_clamped_and_monotone :
    (∀ (t : Option Snap) (e : ℚ),
      0 ≤ score_token_core t e ∧ score_token_core t e ≤ 100)
  ∧ (∀ (s : Snap) (e₁ e₂ : ℚ), e₁ ≤ e₂ →
      score_token_core (some s) e₁ ≤ score_token_core (some s) e₂)
  ∧ (∀ (s : Snap) (e : ℚ) (h₁ h₂ : ℤ), h₁ ≤ h₂ →
      score_token_core (some { s with holderCount := some h₁ }) e
        ≤ score_token_core (some { s with holderCount := some h₂ }) e)
  ∧ (∀ (s : Snap) (e a₁ a₂ : ℚ), a₂ ≤ a₁ →
      score_token_core (some { s with age_minutes := some a₁ }) e
        ≤ score_token_core (some { s with age_minutes := some a₂ }) e)
  ∧ (∀ (s : Snap) (e p₁ p₂ : ℚ), 0 < p₂ → p₂ ≤ p₁ →
      score_token_core (some { s with topHoldersPercentage := some p₁ }) e
        ≤ score_token_core (some { s with topHoldersPercentage := some p₂ }) e) :=
  ⟨score_token_core_bounds,
   fun s e₁ e₂ h => score_core_mono_lp s h,
   fun s e h₁ h₂ h => score_core_mono_holders s e h,
   fun s e a₁ a₂ h => score_core_anti_age s e h,
   fun s e p₁ p₂ hp h => score_core_anti_top s e hp h⟩

/-- A snapshot whose only populated metric is a top-holder concentration of
20 percent. -/
def snapConc20 : Snap :=
  { mcap := none, fdv := none, age_minutes := none, holderCount := none
    topHoldersPercentage := some 20 }

/-- The same snapshot with the concentration lowered to exactly 0. -/
def snapConc0 : Snap := { snapConc20 with topHoldersPercentage := some 0 }

/-- C1 counterexample: lowering the top-holder concentration (favorable
direction) from 20 to 0 with every other input fixed strictly lowers the
score from 10 to 0, because `float(token.get("topHoldersPercentage") or
100)` treats the falsy value `0` as missing and defaults it to 100.  So the
claimed monotonicity in falling concentration fails at concentration 0. -/
theorem c1_counterexample :
    (0 : ℚ) ≤ 20
  ∧ score_token_core (some snapConc20) 0 = 10
  ∧ score_token_core (some snapConc0) 0 = 0
  ∧ score_token_core (some snapConc0) 0 < score_token_core (some snapConc20) 0 := by
  have h20 : score_token_core (some snapConc20) 0 = 10 := by
    rw [score_token_core_some]
    norm_num [snapConc20, pyOrQ, pyOrZ, age_score, lp_mc_score, holders_score, top_score]
  have h0 : score_token_core (some snapConc0) 0 = 0 := by
    rw [score_token_core_some]
    norm_num [snapConc0, snapConc20, pyOrQ, pyOrZ, age_score, lp_mc_score,
      holders_score, top_score]
  refine ⟨by norm_num, h20, h0, ?_⟩
  rw [h20, h0]; norm_num

/-- Witness for C1: the amended monotonicity applied at a concrete input
(effective liquidity rising from 5000 to 20000). -/
theorem c1_witness :
    score_token_core (some snapConc20) 5000 ≤ score_token_core (some snapConc20) 20000 :=
  c1_score_clamped_and_monotone.2.1 snapConc20 5000 20000 (by norm_num)

/-- C2: every score the pipeline can produce is at most 50 (the
concentration sub-score is dead because `get_token_info` never emits a
`topHoldersPercentage` field), 50 is strictly below `MIN_SCORE = 55`, and
consequently `process_token` never reaches the swap call: no score-qualified
purchase ever occurs. -/
theorem c2_score_capped_no_purchase :
    (∀ (ti : Option TokenInfo) (g : GeckoFetch) (q : ℚ),
      score_token_run ti g = .ok q → q ≤ 50)
  ∧ (50 : ℚ) < MIN_SCORE
  ∧ (∀ e : DiscEnv, buysOf (processToken e) = []) :=
  ⟨score_token_run_le_50, by norm_num [MIN_SCORE], processToken_no_buys⟩

/-- Witness for C2 at a concrete input: a failed token-info fetch scores 0,
which is at most 50. -/
theorem c2_witness :
    score_token_run none GeckoFetch.transportError = Except.ok 0 ∧ (0 : ℚ) ≤ 50 :=
  ⟨rfl, c2_score_capped_no_purchase.1 none GeckoFetch.transportError 0 rfl⟩

/-- The three pools of the C3 scenario: 120,000 and 15,000 USD at an allowed
DEX, 50,000 USD at a disallowed DEX, each with at least 5,000 USD of 24h
volume. -/
def c3Pools : List GPool :=
  [{ fdv_usd := 120000, vol24 := 6000, dex := "raydium" },
   { fdv_usd := 15000, vol24 := 7000, dex := "raydium" },
   { fdv_usd := 50000, vol24 := 8000, dex := "letsbonk" }]

/-- C3: with the configured thresholds (`VALID_POOL_LIQUIDITY = 25000`,
`MIN_24H_VOLUME = 5000`, `MIN_POOL_SHARE = 0.10`, `MIN_LIQUIDITY = 100000`),
`compute_effective_liquidity_from_gecko` on the three C3 pools drops the
disallowed-DEX pool and the 15,000 pool and returns effective liquidity
exactly 120,000. -/
theorem c3_effective_liquidity_example :
    VALID_POOL_LIQUIDITY = 25000
  ∧ MIN_24H_VOLUME = 5000
  ∧ MIN_POOL_SHARE = 1/10
  ∧ MIN_LIQUIDITY = 100000
  ∧ ALLOWED_DEXES.contains "letsbonk" = false
  ∧ validPools c3Pools = [120000]
  ∧ computeEffective (GeckoFetch.ok c3Pools) =
      Except.ok { effective_lp := 120000, max_pool_lp := 120000 } := by
  have hv : validPools c3Pools = [120000] := by rfl
  refine ⟨rfl, rfl, rfl, rfl, rfl, hv, ?_⟩
  unfold computeEffective effectivePoolSum
  dsimp only
  rw [hv]
  dsimp only
  have hm : listMax [(120000 : ℚ)] = 120000 := rfl
  rw [hm]
  norm_num [List.filter_cons, List.filter_nil, MIN_POOL_SHARE, MIN_LIQUIDITY]

/-- Every candidate that survives the `fetch_tokens` filter loop had a rug
info equal to the desired score. -/
theorem fetchLoop_mem_rug (env : String → MintData) :
    ∀ (nodes : List (Option String)) (cands : List String),
      fetchLoop env nodes = .ok cands →
      ∀ c ∈ cands, (env c).rugInfo = some (some RUG_SCORE) := by
  intro nodes
  induction nodes with
  | nil =>
    intro cands hf c hc
    simp only [fetchLoop] at hf
    injection hf with h
    subst h
    simp at hc
  | cons n rest ih =>
    intro cands hf c hc
    cases n with
    | none =>
      simp only [fetchLoop] at hf
      exact ih cands hf c hc
    | some m =>
      simp only [fetchLoop] at hf
      cases hti : get_token_info (env m).jup with
      | none => rw [hti] at hf; exact ih cands hf c hc
      | some ti =>
        rw [hti] at hf
        dsimp only at hf
        cases hrg : (env m).rugInfo with
        | none => rw [hrg] at hf; exact ih cands hf c hc
        | some rug =>
          rw [hrg] at hf
          dsimp only at hf
          cases hliq : ti.liquidity with
          | none => rw [hliq] at hf; cases hf
          | some l =>
            rw [hliq] at hf
            dsimp only at hf
            by_cases hrne : rug ≠ some RUG_SCORE
            · rw [if_pos hrne] at hf; exact ih cands hf c hc
            · rw [if_neg hrne] at hf
              by_cases hl : round2 l < MIN_LIQUIDITY
              · rw [if_pos hl] at hf; exact ih cands hf c hc
              · rw [if_neg hl] at hf
                cases hrest : fetchLoop env rest with
                | error err => rw [hrest] at hf; cases hf
                | ok lst =>
                  rw [hrest] at hf
                  injection hf with h
                  subst h
                  rcases List.mem_cons.mp hc with rfl | hmem
                  · rw [hrg, not_not.mp hrne]
                  · exact ih lst hrest c hmem

/-- C4: a token whose fetched rug score differs from the desired
`RUG_SCORE` never appears in the candidate list `fetch_tokens` yields, so
the discovery pipeline never scores or buys it, whatever its liquidity or
other metrics. -/
theorem c4_rug_filter_excludes (env : String → MintData)
    (nodes : List (Option String)) (m : String) (rug : Option ℤ)
    (cands : List String)
    (hfetch : fetchLoop env nodes = .ok cands)
    (hrg : (env m).rugInfo = some rug)
    (hne : rug ≠ some RUG_SCORE) : m ∉ cands := by
  intro hmem
  have h := fetchLoop_mem_rug env nodes cands hfetch m hmem
  rw [hrg] at h
  exact hne (Option.some.inj h)

/-- A fully populated token snapshot used by concrete witnesses. -/
def tiSample : TokenInfo :=
  { usdPrice := some 2, liquidity := some 200000, mcap := some 1000000
    symbol := some "TKN", mint := some "mintA", holderCount := some 100
    mint_authority := true, freeze_authority := true
    priceChange_H1 := some 1, volume_H1 := some 1000, age_minutes := some 30
    name := some "Token" }

/-- A discovery environment whose rug score is 5 for every mint. -/
def envRug5 : String → MintData :=
  fun _ => { jup := .ok tiSample, rugInfo := some (some 5) }

/-- Witness for C4 at a concrete input: with rug score 5 ≠ 1 the only feed
node is filtered out and the candidate list is empty. -/
theorem c4_witness : "mintA" ∉ ([] : List String) :=
  c4_rug_filter_excludes envRug5 [some "mintA"] "mintA" (some 5) []
    (by rfl) rfl (by decide)

/-- `check_and_monitor` makes at most one sell attempt per token per cycle:
the rug branch `continue`s and take-profit/stop-loss sit in an
`if`/`elif`. -/
theorem monitorToken_len_le_one (c : MonCtx) (es : List ExitEvent)
    (h : monitorToken c = .ok es) : es.length ≤ 1 := by
  unfold monitorToken at h
  split_ifs at h
  · injection h with h; subst h; simp
  · cases hti : c.tokenInfo with
    | none => rw [hti] at h; cases h
    | some ti =>
      rw [hti] at h
      dsimp only at h
      cases hs : score_token_run (some ti) c.gecko with
      | error err => rw [hs] at h; cases h
      | ok sc =>
        rw [hs] at h
        cases hrg : c.rugInfo with
        | none => rw [hrg] at h; injection h with h; subst h; simp
        | some rug =>
          rw [hrg] at h
          cases hsw : c.swaps with
          | nil => rw [hsw] at h; injection h with h; subst h; simp
          | cons row tl =>
            rw [hsw] at h
            dsimp only at h
            split_ifs at h <;>
              (injection h with h; subst h; simp)

/-- Under the hypotheses that one held token actually reaches the PNL
stage, `check_and_monitor`'s decision reduces to the three-way exit check. -/
theorem monitorToken_pnl_stage (c : MonCtx) (ti : TokenInfo) (rug : Option ℤ)
    (row : SwapRowM) (tl : List SwapRowM)
    (hex : c.excluded = false) (hti : c.tokenInfo = some ti)
    (hg : c.gecko ≠ GeckoFetch.badBody)
    (hrug : c.rugInfo = some rug) (hsw : c.swaps = row :: tl)
    (hentry : 0 < safeFloat row.entering_price)
    (hprice : 0 < safeFloat ti.usdPrice) :
    monitorToken c =
      (if rug ≠ some RUG_SCORE then .ok [ExitEvent.rugExit]
       else if TAKE_PROFIT ≤ (safeFloat ti.usdPrice - safeFloat row.entering_price)
            / safeFloat row.entering_price * 100 then .ok [ExitEvent.takeProfit]
       else if (safeFloat ti.usdPrice - safeFloat row.entering_price)
            / safeFloat row.entering_price * 100 ≤ STOP_LOSS then .ok [ExitEvent.stopLoss]
       else .ok []) := by
  unfold monitorToken
  rw [hti]
  dsimp only
  rw [if_neg (by rw [hex]; exact Bool.false_ne_true)]
  have hsrun : ∃ sc, score_token_run (some ti) c.gecko = .ok sc := by
    cases hgk : c.gecko with
    | transportError => exact ⟨_, rfl⟩
    | badBody => exact absurd hgk hg
    | ok ps => exact ⟨_, rfl⟩
  obtain ⟨sc, hsc⟩ := hsrun
  rw [hsc, hrug, hsw]
  dsimp only
  rw [if_neg (by push_neg; exact ⟨hentry, hprice⟩)]

/-- C5 (amended): in a monitoring cycle, for each held token that reaches
the PNL stage (token info present, pools call not raising, rug info
present, a recorded entry trade, and positive entry and current prices): a
rug score deviating from `RUG_SCORE` triggers a sell regardless of PNL and
skips the take-profit/stop-loss checks; otherwise at most one of
take-profit and stop-loss fires.  Unconditionally, at most one exit fires
per token per cycle.  (A held token failing those preconditions is skipped
without any sell even when its rug score deviates — see the
counterexample.) -/
theorem c5_monitor_exit_discipline :
    (∀ (c : MonCtx) (es : List ExitEvent),
      monitorToken c = .ok es → es.length ≤ 1)
  ∧ (∀ (c : MonCtx) (ti : TokenInfo) (rug : Option ℤ)
       (row : SwapRowM) (tl : List SwapRowM),
      c.excluded = false → c.tokenInfo = some ti →
      c.gecko ≠ GeckoFetch.badBody →
      c.rugInfo = some rug → c.swaps = row :: tl →
      0 < safeFloat row.entering_price → 0 < safeFloat ti.usdPrice →
      ((rug ≠ some RUG_SCORE → monitorToken c = .ok [ExitEvent.rugExit])
       ∧ (rug = some RUG_SCORE →
            monitorToken c = .ok [ExitEvent.takeProfit]
          ∨ monitorToken c = .ok [ExitEvent.stopLoss]
          ∨ monitorToken c = .ok []))) := by
  refine ⟨monitorToken_len_le_one, ?_⟩
  intro c ti rug row tl hex hti hg hrug hsw hentry hprice
  have hred := monitorToken_pnl_stage c ti rug row tl hex hti hg hrug hsw hentry hprice
  constructor
  · intro hne
    rw [hred, if_pos hne]
  · intro heq
    rw [hred, if_neg (by rw [heq]; exact not_not_intro rfl)]
    split_ifs with h1 h2
    · exact Or.inl rfl
    · exact Or.inr (Or.inl rfl)
    · exact Or.inr (Or.inr rfl)

/-- A held-token context whose rug score deviates (5 ≠ 1) but whose swap
history is empty. -/
def ctxNoEntry : MonCtx :=
  { mint := "mintA", excluded := false, tokenInfo := some tiSample
    gecko := GeckoFetch.transportError, rugInfo := some (some 5)
    swaps := [], uiAmount := 1 }

/-- C5 counterexample: a held token whose fetched rug score deviates from
the desired value but that has no recorded entry trade is skipped with no
sell attempt at all — the "no entry data" `continue` runs before the rug
check, so the claimed "sell is triggered whenever the rug score deviates"
is false for it. -/
theorem c5_counterexample :
    ctxNoEntry.rugInfo = some (some 5)
  ∧ some (5 : ℤ) ≠ some RUG_SCORE
  ∧ ctxNoEntry.swaps = []
  ∧ monitorToken ctxNoEntry = .ok [] :=
  ⟨rfl, by decide, rfl, rfl⟩

/-- A held-token context reaching the PNL stage with a deviating rug
score. -/
def ctxRugDev : MonCtx :=
  { mint := "mintA", excluded := false, tokenInfo := some tiSample
    gecko := GeckoFetch.transportError, rugInfo := some (some 7)
    swaps := [{ entering_price := some 1, input_amount_ui := some 1 }]
    uiAmount := 1 }

/-- Witness for C5 at a concrete input: a token at the PNL stage with rug
score 7 ≠ 1 gets exactly the rug-exit sell, and that exit list has length
at most one. -/
theorem c5_witness :
    monitorToken ctxRugDev = .ok [ExitEvent.rugExit]
  ∧ ([ExitEvent.rugExit]).length ≤ 1 := by
  have h := (c5_monitor_exit_discipline.2 ctxRugDev tiSample (some 7)
    { entering_price := some 1, input_amount_ui := some 1 } []
    rfl rfl (by decide) rfl rfl
    (by norm_num [safeFloat]) (by norm_num [safeFloat, tiSample])).1 (by decide)
  exact ⟨h, c5_monitor_exit_discipline.1 ctxRugDev [ExitEvent.rugExit] h⟩

/-- C9: in a monitoring cycle where a held token reaches the PNL stage, the
rug score equals the desired value, and the computed PNL percentage equals
`TAKE_PROFIT` exactly, the take-profit exit fires: the `pnl_pct >=
TAKE_PROFIT` comparison is inclusive. -/
theorem c9_take_profit_boundary_inclusive (c : MonCtx) (ti : TokenInfo)
    (row : SwapRowM) (tl : List SwapRowM)
    (hex : c.excluded = false) (hti : c.tokenInfo = some ti)
    (hg : c.gecko ≠ GeckoFetch.badBody)
    (hrug : c.rugInfo = some (some RUG_SCORE))
    (hsw : c.swaps = row :: tl)
    (hentry : 0 < safeFloat row.entering_price)
    (hprice : 0 < safeFloat ti.usdPrice)
    (hpnl : (safeFloat ti.usdPrice - safeFloat row.entering_price)
        / safeFloat row.entering_price * 100 = TAKE_PROFIT) :
    monitorToken c = .ok [ExitEvent.takeProfit] := by
  rw [monitorToken_pnl_stage c ti (some RUG_SCORE) row tl hex hti hg hrug hsw
    hentry hprice]
  rw [if_neg (not_not_intro rfl), if_pos (by rw [hpnl])]

/-- A held-token context at the exact take-profit boundary: entry 10,
current price 14, PNL exactly +40 percent. -/
def ctxBoundary : MonCtx :=
  { mint := "mintA", excluded := false
    tokenInfo := some { tiSample with usdPrice := some 14 }
    gecko := GeckoFetch.transportError, rugInfo := some (some RUG_SCORE)
    swaps := [{ entering_price := some 10, input_amount_ui := some 1 }]
    uiAmount := 1 }

/-- Witness for C9 at the concrete boundary input (entry 10, price 14,
PNL exactly +40 percent = TAKE_PROFIT): the take-profit sell fires. -/
theorem c9_witness : monitorToken ctxBoundary = .ok [ExitEvent.takeProfit] :=
  c9_take_profit_boundary_inclusive ctxBoundary
    { tiSample with usdPrice := some 14 }
    { entering_price := some 10, input_amount_ui := some 1 } []
    rfl rfl (by decide) rfl rfl
    (by norm_num [safeFloat]) (by norm_num [safeFloat])
    (by norm_num [safeFloat, TAKE_PROFIT])

/-- A live swap attempt whose quote fetch returns `None`. -/
def envQuoteFail : SwapEnv :=
  { testingMode := false, wallet := "w", inputMint := WSOL, outputMint := "mintA"
    amount := 1, action := "buy", tokenIn := none, tokenOut := some tiSample
    quoteFetch := .ok none, swapResp := none, txDecodeOk := true
    sigStr := "sig", send := SendOutcome.confirmed }

/-- C6 counterexample: a live (non-testing) swap attempt whose quote fetch
fails returns "failed" with zero persisted trade records, so the ledger
does not reflect every attempted swap. -/
theorem c6_counterexample :
    envQuoteFail.testingMode = false
  ∧ swapExec envQuoteFail = .ok ("failed", []) := ⟨rfl, rfl⟩

/-- Reduction of a live `swap` to its send stage: under the preconditions
(quote obtained, nonzero truncated input amount, swap transaction obtained
and decoded, output token info present), the result is the send outcome's
status together with whatever the single `log_swap` call persisted. -/
theorem swapExec_send_stage (e : SwapEnv) (q : QuoteData) (tx : String)
    (din dout : ℕ) (t : TokenInfo)
    (hlive : e.testingMode = false)
    (hdin : decimalsFor e.inputMint e.tokenIn = .ok din)
    (hdout : decimalsFor e.outputMint e.tokenOut = .ok dout)
    (hq : e.quoteFetch = .ok (some q))
    (hraw : pyInt (e.amount * (10 : ℚ) ^ din) ≠ 0)
    (hresp : e.swapResp = some tx)
    (hdec : e.txDecodeOk = true)
    (htok : e.tokenOut = some t) :
    swapExec e = .ok (statusOf e.send,
      log_swap_call e.wallet e.action
        (if 0 < (q.outAmount : ℚ) / (10 : ℚ) ^ dout
          then ((pyInt (e.amount * (10 : ℚ) ^ din) : ℚ) / (10 : ℚ) ^ din)
            / ((q.outAmount : ℚ) / (10 : ℚ) ^ dout)
          else 0)
        ((pyInt (e.amount * (10 : ℚ) ^ din) : ℚ) / (10 : ℚ) ^ din)
        ((q.outAmount : ℚ) / (10 : ℚ) ^ dout)
        t.liquidity (sigOf e.send e.sigStr) q.priceImpactPct
        (statusOf e.send)) := by
  have hUi : ((pyInt (e.amount * (10 : ℚ) ^ din) : ℚ) / (10 : ℚ) ^ din) ≠ 0 :=
    div_ne_zero (Int.cast_ne_zero.mpr hraw) (pow_ne_zero din (by norm_num))
  unfold swapExec
  rw [if_neg (by rw [hlive]; exact Bool.false_ne_true)]
  rw [hdin]
  dsimp only
  rw [hdout]
  dsimp only
  rw [hq]
  dsimp only
  rw [if_neg hUi]
  rw [hresp]
  dsimp only
  rw [if_neg (by rw [hdec]; exact (by decide : ¬ (true = false)))]
  rw [htok]

/-- C6 (amended): in live (non-testing) mode, one trade record is persisted
for an attempt exactly when it obtains a quote, has a nonzero truncated
input amount (otherwise the trade-summary print divides by zero and
raises, persisting nothing), obtains the swap transaction, decodes it (a
decode failure raises, persisting nothing), and the output token's
snapshot carries a non-null liquidity — a null liquidity makes db.py's
`Decimal(str(None))` raise inside `log_swap`'s swallowed `try` and roll
back, persisting nothing while the status is still returned.  The
persisted record's status equals the returned status
(success/failed/timeout) but carries no error detail (`error_message` is
never passed and stays `None`), and an attempt whose send raised before a
signature was bound records the literal string "None" as its signature, so
successive such attempts collide on the signature key and update one
shared row instead of inserting.  Attempts failing at the quote or the
swap-transaction request return "failed" persisting nothing (see the
counterexample). -/
theorem c6_swap_logging :
    (∀ (e : SwapEnv) (q : QuoteData) (tx : String) (din dout : ℕ)
       (t : TokenInfo) (l : ℚ),
      e.testingMode = false →
      decimalsFor e.inputMint e.tokenIn = .ok din →
      decimalsFor e.outputMint e.tokenOut = .ok dout →
      e.quoteFetch = .ok (some q) →
      pyInt (e.amount * (10 : ℚ) ^ din) ≠ 0 →
      e.swapResp = some tx →
      e.txDecodeOk = true →
      e.tokenOut = some t →
      t.liquidity = some l →
      ∃ rec, swapExec e = .ok (statusOf e.send, [rec])
        ∧ rec.status = statusOf e.send
        ∧ rec.error_message = none
        ∧ rec.output_liqudation = l
        ∧ (statusOf e.send = "success" ∨ statusOf e.send = "failed"
            ∨ statusOf e.send = "timeout")
        ∧ (e.send = SendOutcome.raisedBeforeSig → rec.tx_signature = "None"))
  ∧ (∀ (e : SwapEnv) (q : QuoteData) (tx : String) (din dout : ℕ)
       (t : TokenInfo),
      e.testingMode = false →
      decimalsFor e.inputMint e.tokenIn = .ok din →
      decimalsFor e.outputMint e.tokenOut = .ok dout →
      e.quoteFetch = .ok (some q) →
      pyInt (e.amount * (10 : ℚ) ^ din) ≠ 0 →
      e.swapResp = some tx →
      e.txDecodeOk = true →
      e.tokenOut = some t →
      t.liquidity = none →
      swapExec e = .ok (statusOf e.send, []))
  ∧ (∀ (e : SwapEnv) (q : QuoteData) (tx : String) (din dout : ℕ),
      e.testingMode = false →
      decimalsFor e.inputMint e.tokenIn = .ok din →
      decimalsFor e.outputMint e.tokenOut = .ok dout →
      e.quoteFetch = .ok (some q) →
      pyInt (e.amount * (10 : ℚ) ^ din) ≠ 0 →
      e.swapResp = some tx →
      e.txDecodeOk = false →
      swapExec e = .error PyErr.valueError)
  ∧ (∀ (e : SwapEnv) (din dout : ℕ),
      e.testingMode = false →
      decimalsFor e.inputMint e.tokenIn = .ok din →
      decimalsFor e.outputMint e.tokenOut = .ok dout →
      e.quoteFetch = .ok none →
      swapExec e = .ok ("failed", []))
  ∧ (∀ (e : SwapEnv) (q : QuoteData) (din dout : ℕ),
      e.testingMode = false →
      decimalsFor e.inputMint e.tokenIn = .ok din →
      decimalsFor e.outputMint e.tokenOut = .ok dout →
      e.quoteFetch = .ok (some q) →
      pyInt (e.amount * (10 : ℚ) ^ din) ≠ 0 →
      e.swapResp = none →
      swapExec e = .ok ("failed", []))
  ∧ (∀ (r1 r2 : TradeRow) (t1 t2 : ℕ),
      r1.tx_signature = "None" → r2.tx_signature = "None" →
      (log_swap_db (log_swap_db [] r1 t1) r2 t2).length = 1) := by
  refine ⟨?_, ?_, ?_, ?_, ?_, ?_⟩
  · intro e q tx din dout t l hlive hdin hdout hq hraw hresp hdec htok hliq
    rw [swapExec_send_stage e q tx din dout t hlive hdin hdout hq hraw hresp
      hdec htok, hliq]
    refine ⟨_, rfl, rfl, rfl, rfl, ?_, ?_⟩
    · cases e.send <;> simp [statusOf]
    · intro h
      rw [h]
      rfl
  · intro e q tx din dout t hlive hdin hdout hq hraw hresp hdec htok hliq
    rw [swapExec_send_stage e q tx din dout t hlive hdin hdout hq hraw hresp
      hdec htok, hliq]
    rfl
  · intro e q tx din dout hlive hdin hdout hq hraw hresp hdec
    have hUi : ((pyInt (e.amount * (10 : ℚ) ^ din) : ℚ) / (10 : ℚ) ^ din) ≠ 0 :=
      div_ne_zero (Int.cast_ne_zero.mpr hraw) (pow_ne_zero din (by norm_num))
    unfold swapExec
    rw [if_neg (by rw [hlive]; exact Bool.false_ne_true)]
    rw [hdin]
    dsimp only
    rw [hdout]
    dsimp only
    rw [hq]
    dsimp only
    rw [if_neg hUi]
    rw [hresp]
    dsimp only
    rw [if_pos hdec]
  · intro e din dout hlive hdin hdout hq
    unfold swapExec
    rw [if_neg (by rw [hlive]; exact Bool.false_ne_true)]
    rw [hdin]
    dsimp only
    rw [hdout]
    dsimp only
    rw [hq]
  · intro e q din dout hlive hdin hdout hq hraw hresp
    have hUi : ((pyInt (e.amount * (10 : ℚ) ^ din) : ℚ) / (10 : ℚ) ^ din) ≠ 0 :=
      div_ne_zero (Int.cast_ne_zero.mpr hraw) (pow_ne_zero din (by norm_num))
    unfold swapExec
    rw [if_neg (by rw [hlive]; exact Bool.false_ne_true)]
    rw [hdin]
    dsimp only
    rw [hdout]
    dsimp only
    rw [hq]
    dsimp only
    rw [if_neg hUi]
    rw [hresp]
  · intro r1 r2 t1 t2 h1 h2
    have e1 : log_swap_db [] r1 t1 = [{ r1 with updated_at := t1 }] := by
      unfold log_swap_db
      rfl
    rw [e1]
    unfold log_swap_db
    have hbeq : (({ r1 with updated_at := t1 } : TradeRow).tx_signature
        == r2.tx_signature) = true := by
      simp only [beq_iff_eq]
      show r1.tx_signature = r2.tx_signature
      rw [h1, h2]
    simp [hbeq]

/-- A live swap attempt that reaches the send stage and confirms. -/
def envSendOk : SwapEnv :=
  { testingMode := false, wallet := "w", inputMint := WSOL, outputMint := "mintA"
    amount := 1, action := "buy", tokenIn := none, tokenOut := some tiSample
    quoteFetch := .ok (some { outAmount := 5000000, priceImpactPct := 1/100 })
    swapResp := some "tx64", txDecodeOk := true
    sigStr := "sig", send := SendOutcome.confirmed }

/-- Witness for C6 at a concrete input: an attempt that reaches the send
stage with a non-null output-token liquidity persists exactly one record
whose status matches and whose error detail is empty. -/
theorem c6_witness :
    ∃ rec, swapExec envSendOk = .ok (statusOf envSendOk.send, [rec])
      ∧ rec.status = statusOf envSendOk.send
      ∧ rec.error_message = none
      ∧ rec.output_liqudation = 200000
      ∧ (statusOf envSendOk.send = "success" ∨ statusOf envSendOk.send = "failed"
          ∨ statusOf envSendOk.send = "timeout")
      ∧ (envSendOk.send = SendOutcome.raisedBeforeSig → rec.tx_signature = "None") :=
  c6_swap_logging.1 envSendOk { outAmount := 5000000, priceImpactPct := 1/100 }
    "tx64" 9 6 tiSample 200000 rfl (by rfl) (by rfl) rfl
    (by
      have h1 : envSendOk.amount * (10 : ℚ) ^ 9 = ((1000000000 : ℤ) : ℚ) := by
        norm_num [envSendOk]
      unfold pyInt
      rw [h1, if_pos (by norm_num), Int.floor_intCast]
      norm_num)
    rfl rfl rfl rfl

/-- A discovery candidate whose token-info fetch failed (transport error →
`get_token_info` returns `None`). -/
def discEnvFail : DiscEnv :=
  { mint := some "mintA", alreadyClosed := false, alreadyOpened := false
    canOpen := true, tokenInfo := none, gecko := GeckoFetch.transportError
    usdtBalance := 100, solBalance := 1, solPrice := some 100 }

/-- A healthy discovery candidate following the failed one in the same
cycle. -/
def discEnvGood : DiscEnv :=
  { mint := some "mintB", alreadyClosed := false, alreadyOpened := false
    canOpen := true, tokenInfo := some tiSample
    gecko := GeckoFetch.transportError
    usdtBalance := 100, solBalance := 1, solPrice := some 100 }

/-- C7 counterexample: a transport failure makes `get_token_info` return
`None` as claimed, but in `process_token` the subsequent
`token_data.get('name', ...)` raises on that `None`, the exception is
caught only at the `run_once` level, and the second token of the cycle is
never processed — the enclosing discovery iteration over the remaining
tokens IS aborted.  Also, a 200 pools response with an unparsable body
raises from `compute_effective_liquidity_from_gecko` (the `r.json()` call
sits outside its `try`) instead of returning an empty result. -/
theorem c7_counterexample :
    get_token_info JupFetch.failure = none
  ∧ computeEffective GeckoFetch.badBody = .error PyErr.jsonError
  ∧ processToken discEnvFail = .error PyErr.attributeError
  ∧ runOnceLoop [discEnvFail, discEnvGood] = (1, [])
  ∧ [discEnvFail, discEnvGood].length = 2 :=
  ⟨rfl, rfl, rfl, rfl, rfl⟩

/-- C7 (amended): `get_token_info` returns `None` on any transport or parse
failure and `compute_effective_liquidity_from_gecko` returns
`effective_lp = 0.0` on a transport failure; but a 200 pools response with
an unparsable body raises from `compute_effective_liquidity_from_gecko`,
and a `None` token info makes `process_token` (resp. `check_and_monitor`)
raise, which aborts the iteration over the remaining tokens of that
discovery (resp. monitoring) cycle — the exception is caught only at the
cycle level. -/
theorem c7_failure_handling :
    (get_token_info JupFetch.failure = none
      ∧ get_token_info JupFetch.emptyData = none)
  ∧ computeEffective GeckoFetch.transportError =
      .ok { effective_lp := 0, max_pool_lp := 0 }
  ∧ computeEffective GeckoFetch.badBody = .error PyErr.jsonError
  ∧ (∀ (e : DiscEnv) (rest : List DiscEnv) (m : String),
      e.mint = some m → e.alreadyClosed = false → e.alreadyOpened = false →
      e.canOpen = true → e.tokenInfo = none →
      runOnceLoop (e :: rest) = (1, []))
  ∧ (∀ (c : MonCtx) (rest : List MonCtx),
      c.excluded = false → c.tokenInfo = none →
      monitorLoop (c :: rest) = (1, [])) := by
  refine ⟨⟨rfl, rfl⟩, rfl, rfl, ?_, ?_⟩
  · intro e rest m hm h1 h2 h3 h4
    have hpt : processToken e = .error PyErr.attributeError := by
      unfold processToken
      rw [hm]
      dsimp only
      rw [if_neg (by rw [h1]; exact Bool.false_ne_true)]
      rw [if_neg (by rw [h2]; exact Bool.false_ne_true)]
      rw [if_neg (by rw [h3]; exact (by decide : ¬ (true = false)))]
      rw [h4]
    unfold runOnceLoop
    rw [hpt]
  · intro c rest hex hti
    have hmt : monitorToken c = .error PyErr.attributeError := by
      unfold monitorToken
      rw [if_neg (by rw [hex]; exact Bool.false_ne_true)]
      rw [hti]
    unfold monitorLoop
    rw [hmt]

/-- Witness for C7 at a concrete input: the failed first candidate aborts
the cycle after one token and no buys. -/
theorem c7_witness : runOnceLoop [discEnvFail, discEnvGood] = (1, []) :=
  c7_failure_handling.2.2.2.1 discEnvFail [discEnvGood] "mintA"
    rfl rfl rfl rfl rfl

/-- C8: for a pair of `log_swap` calls with the same transaction signature
(onto a table not yet containing that signature), the second call updates
only the status, error-message and update-timestamp columns of the single
existing row; all monetary fields remain those written by the first call,
and exactly one row with that signature exists. -/
theorem c8_upsert_updates_status_only (db : List TradeRow) (r1 r2 : TradeRow)
    (t1 t2 : ℕ)
    (hsig : r1.tx_signature = r2.tx_signature)
    (hfresh : ∀ row ∈ db, row.tx_signature ≠ r1.tx_signature) :
    (log_swap_db (log_swap_db db r1 t1) r2 t2).filter
        (fun row => row.tx_signature == r1.tx_signature)
      = [{ r1 with status := r2.status, error_message := r2.error_message,
                   updated_at := t2 }] := by
  have h1 : (db.any (fun row => row.tx_signature == r1.tx_signature)) = false := by
    rw [List.any_eq_false]
    intro row hrow
    simp only [beq_iff_eq]
    exact hfresh row hrow
  have hstep1 : log_swap_db db r1 t1 = db ++ [{ r1 with updated_at := t1 }] := by
    unfold log_swap_db
    rw [if_neg (by rw [h1]; exact Bool.false_ne_true)]
  rw [hstep1]
  have h2 : ((db ++ [{ r1 with updated_at := t1 }]).any
      (fun row => row.tx_signature == r2.tx_signature)) = true := by
    rw [List.any_eq_true]
    refine ⟨{ r1 with updated_at := t1 }, by simp, ?_⟩
    simp [hsig]
  unfold log_swap_db
  rw [if_pos h2]
  rw [List.map_append, List.filter_append]
  have hmap1 : (db.map (fun row =>
      if row.tx_signature == r2.tx_signature then
        { row with status := r2.status, error_message := r2.error_message,
                   updated_at := t2 }
      else row)).filter (fun row => row.tx_signature == r1.tx_signature) = [] := by
    rw [List.filter_eq_nil_iff]
    intro a ha
    rcases List.mem_map.mp ha with ⟨row, hrow, hfa⟩
    have hne : (row.tx_signature == r2.tx_signature) = false := by
      simp only [beq_eq_false_iff_ne, ne_eq]
      rw [← hsig]
      exact hfresh row hrow
    rw [hne] at hfa
    simp only [Bool.false_eq_true, if_false] at hfa
    subst hfa
    simp only [beq_iff_eq]
    exact hfresh row hrow
  rw [hmap1]
  have hr1 : (({ r1 with updated_at := t1 } : TradeRow).tx_signature
      == r2.tx_signature) = true := by simp [hsig]
  simp only [List.map_cons, List.map_nil, hr1, if_true, List.nil_append]
  rw [List.filter_cons]
  simp

/-- A first (buy) trade record with signature "sig1". -/
def rowBuy : TradeRow :=
  { wallet := "w", action := "buy", entering_price := "0.00100000"
    input_mint := "USDTmint", input_amount_ui := 1, input_amount_raw := 1000000
    output_mint := "mintA", output_amount_ui := 1000
    output_amount_raw := 1000000000, output_liqudation := 200000
    tx_signature := "sig1", price_impact_pct := some (1/100)
    slippage_bps := some 50, status := "success", error_message := none
    updated_at := 0 }

/-- A re-insertion for the same signature with a different status and error
text. -/
def rowRetry : TradeRow :=
  { rowBuy with status := "failed", error_message := some "blockhash expired" }

/-- Witness for C8 at a concrete input: after inserting `rowBuy` and then
`rowRetry` (same signature) into an empty table, exactly one "sig1" row
exists, carrying `rowBuy`'s monetary fields and `rowRetry`'s status and
error message. -/
theorem c8_witness :
    (log_swap_db (log_swap_db [] rowBuy 1) rowRetry 2).filter
        (fun row => row.tx_signature == rowBuy.tx_signature)
      = [{ rowBuy with status := rowRetry.status,
                       error_message := rowRetry.error_message,
                       updated_at := 2 }] :=
  c8_upsert_updates_status_only [] rowBuy rowRetry 1 2 rfl (by simp)

/-- C10: with a USDT balance below `AMOUNT_PER_TRADE`, the capital check
`calculate_position_size` returns `False` (the balance comparison is
`usdt_balance > AMOUNT_PER_TRADE` inside an `and`), and `process_token`
returns without invoking the swap executor, regardless of the token's
score. -/
theorem c10_capital_check_blocks :
    (∀ (usdt sol : ℚ) (sp : Option ℚ), usdt < AMOUNT_PER_TRADE →
      calculate_position_size usdt sol sp = false)
  ∧ (∀ e : DiscEnv, e.usdtBalance < AMOUNT_PER_TRADE →
      buysOf (processToken e) = []) := by
  constructor
  · intro usdt sol sp h
    unfold calculate_position_size
    cases sp with
    | none => rfl
    | some p =>
      dsimp only
      have hn : ¬ (AMOUNT_PER_TRADE < usdt) := not_lt.mpr (le_of_lt h)
      simp [hn]
  · intro e h
    exact processToken_no_buys e

/-- A discovery candidate whose wallet holds only half the per-trade USDT
amount. -/
def discEnvLowUsdt : DiscEnv :=
  { mint := some "mintA", alreadyClosed := false, alreadyOpened := false
    canOpen := true, tokenInfo := some tiSample
    gecko := GeckoFetch.transportError
    usdtBalance := 1/2, solBalance := 1, solPrice := some 100 }

/-- Witness for C10 at a concrete input: a USDT balance of 0.5 (below the
per-trade amount of 1.0) fails the capital check, and the candidate is not
bought. -/
theorem c10_witness :
    calculate_position_size (1/2) 1 (some 100) = false
  ∧ buysOf (processToken discEnvLowUsdt) = [] :=
  ⟨c10_capital_check_blocks.1 (1/2) 1 (some 100)
      (by norm_num [AMOUNT_PER_TRADE, RISK_PER_TRADE]),
   c10_capital_check_blocks.2 discEnvLowUsdt
      (by norm_num [AMOUNT_PER_TRADE, RISK_PER_TRADE, discEnvLowUsdt])⟩
